import Mathlib

/-!
Verification development for the urllib3 async HTTP/1.1 connection module
(src/urllib3/_async/connection.py).

Bytes on the wire are modelled as lists of natural numbers (byte values).
The h11 framing engine is a third-party dependency that is not part of the
repository sources; where its behaviour matters it is modelled from the
specification text (section 4.1) and each such definition says so in its
doc comment.
-/

namespace Urllib3

/-- Wire bytes are modelled as a list of byte values. -/
abbrev Bytes := List Nat

/-- Carriage-return line-feed pair used by HTTP framing. -/
def CRLF : Bytes := [13, 10]

/-- Modelled from the spec: states of one side of the h11 framing engine.
Only the distinctions the connection module observes are kept: IDLE,
an active (mid-exchange) state, a completed state, the poisoned ERROR
state set by a failed send, and CLOSED. -/
inductive H11State where
  | idle
  | active
  | done
  | error
  | closed
deriving DecidableEq, Repr

/-- Modelled from the spec: the h11 Connection state machine as the
connection module observes it, a pair of per-side states. -/
structure H11Conn where
  ourState : H11State
  theirState : H11State
deriving DecidableEq, Repr

/-- Modelled from the spec: an h11 Response event carries a status code,
HTTP version bytes and a header list. -/
structure H11Response where
  statusCode : Nat
  httpVersion : Bytes
  headers : List (Bytes × Bytes)
deriving DecidableEq, Repr

/-- Decode latin-1 bytes to a string, one character per byte.  This models
the header decoding in headers_to_native_string. -/
def latin1Decode (b : Bytes) : String :=
  String.mk (b.map Char.ofNat)

/-- Convert received h11 headers to native strings, as
headers_to_native_string does (each byte name/value decoded as latin-1). -/
def headersToNativeString (hs : List (Bytes × Bytes)) : List (String × String) :=
  hs.map (fun p => (latin1Decode p.1, latin1Decode p.2))

/-- The urllib3 Response object as built by response_from_h11: status code,
native-string headers and the version bytes.  The body object (a reference
to the connection) carries no data and is omitted. -/
structure Response where
  statusCode : Nat
  headers : List (String × String)
  version : Bytes
deriving DecidableEq, Repr

/-- Error taxonomy of the connection module, restricted to the errors the
claims mention. -/
inductive Err where
  | invalidBody
  | protocolError
  | badVersion (v : Bytes)
  | failedTunnel (resp : Response)
  | brokenAssert
deriving DecidableEq, Repr

/-- The byte sequence of the string HTTP/ used as a version prefix. -/
def HTTPSlash : Bytes := [72, 84, 84, 80, 47]

/-- The supported response versions, the bytes of 1.0 and of 1.1
(the frozenset SUPPORTED_VERSIONS in the source). -/
def SUPPORTED_VERSIONS : List Bytes := [[49, 46, 48], [49, 46, 49]]

/-- Embedding of response_from_h11: reject versions outside
SUPPORTED_VERSIONS with BadVersionError, otherwise build the urllib3
Response with version bytes HTTP/ ++ http_version. -/
def responseFromH11 (r : H11Response) : Except Err Response :=
  if r.httpVersion ∈ SUPPORTED_VERSIONS then
    Except.ok
      { statusCode := r.statusCode
        headers := headersToNativeString r.headers
        version := HTTPSlash ++ r.httpVersion }
  else
    Except.error (Err.badVersion r.httpVersion)

/-- The possible request body shapes accepted or rejected by
make_body_iterable: absent, a byte string, a readable object (modelled by
the list of blocks its successive read calls return, the read loop stopping
at the first empty block), a text string, a non-text iterable of byte
chunks, and any other object. -/
inductive Body where
  | none
  | bytes (b : Bytes)
  | readable (blocks : List Bytes)
  | text (s : String)
  | iter (chunks : List Bytes)
  | other
deriving DecidableEq, Repr

/-- Embedding of read_readable: repeatedly read blocks until a falsy
(empty) block is returned. -/
def readReadable (blocks : List Bytes) : List Bytes :=
  blocks.takeWhile (fun b => !b.isEmpty)

/-- Embedding of make_body_iterable: None becomes the empty list, bytes a
one-element list, readables are drained via read_readable, non-text
iterables pass through, and text or anything else raises
InvalidBodyError. -/
def makeBodyIterable : Body → Except Err (List Bytes)
  | Body.none => Except.ok []
  | Body.bytes b => Except.ok [b]
  | Body.readable blocks => Except.ok (readReadable blocks)
  | Body.text _ => Except.error Err.invalidBody
  | Body.iter chunks => Except.ok chunks
  | Body.other => Except.error Err.invalidBody

/-- Modelled from the spec: the body framing h11 selects for the outgoing
request, either chunked transfer encoding or content-length framing. -/
inductive Framing where
  | chunked
  | contentLength
deriving DecidableEq, Repr

/-- Lowercase hexadecimal digits of a chunk size, as bytes. -/
def hexBytes (n : Nat) : Bytes :=
  (Nat.toDigits 16 n).map Char.toNat

/-- Modelled from the spec: bytes emitted by the h11 state machine for one
Data event.  Under chunked framing a non-empty chunk becomes a size line,
the data and a trailing CRLF; a zero-length Data is suppressed and emits
nothing (the spec: a zero-length Data must never emit the 0 CRLF
terminator).  Under content-length framing the data passes through. -/
def sendData (fr : Framing) (d : Bytes) : Bytes :=
  match fr with
  | Framing.chunked =>
      if d.isEmpty then [] else hexBytes d.length ++ CRLF ++ d ++ CRLF
  | Framing.contentLength => d

/-- Modelled from the spec: bytes emitted for the EndOfMessage event, the
zero-chunk terminator under chunked framing and nothing under
content-length framing. -/
def sendEOM (fr : Framing) : Bytes :=
  match fr with
  | Framing.chunked => [48, 13, 10, 13, 10]
  | Framing.contentLength => []

/-- The request as the connection module sees it: method, target, header
list, body. -/
structure Request where
  method : Bytes
  target : Bytes
  headers : List (Bytes × Bytes)
  body : Body
deriving Repr

/-- Bytes of one serialized header line. -/
def headerLine (h : Bytes × Bytes) : Bytes :=
  h.1 ++ [58, 32] ++ h.2 ++ CRLF

/-- Modelled from the spec: bytes emitted by the h11 state machine for the
Request event, the request line (method SP target SP HTTP/1.1 CRLF), the
header block and the blank line.  This piece is never empty because it
contains at least the request line. -/
def requestHeadBytes (req : Request) : Bytes :=
  req.method ++ [32] ++ req.target ++ [32] ++ HTTPSlash ++ [49, 46, 49] ++ CRLF
    ++ (req.headers.map headerLine).flatten ++ CRLF

/-- The first transformation of request_bytes_iterable: the header bytes
and the first body piece (or the end-of-message bytes) are combined into a
single first packet; later pieces are untouched. -/
def combineFirstTwo : List Bytes → List Bytes
  | [] => []
  | [p] => [p]
  | p0 :: p1 :: rest => (p0 ++ p1) :: rest

/-- Embedding of request_bytes_iterable: serialize the request head, one
piece per body chunk, and the end-of-message piece; combine the first two
pieces into one packet; drop every empty piece so that the transport is
never handed an empty send.  A body rejected by make_body_iterable makes
the iterable raise before its first piece is yielded, modelled by the
error result. -/
def requestBytesIterable (fr : Framing) (req : Request) : Except Err (List Bytes) :=
  match makeBodyIterable req.body with
  | Except.error e => Except.error e
  | Except.ok chunks =>
      let pieces := requestHeadBytes req :: (chunks.map (sendData fr) ++ [sendEOM fr])
      Except.ok ((combineFirstTwo pieces).filter (fun p => !p.isEmpty))

/-- Body chunks of the chunked-transfer demonstration scenario: foo, bar,
an empty chunk, baz. -/
def demoChunks : List Bytes :=
  [[102, 111, 111], [98, 97, 114], [], [98, 97, 122]]

/-- Demonstration request GET / with the demoChunks iterable body. -/
def demoReq : Request :=
  { method := [71, 69, 84], target := [47], headers := [], body := Body.iter demoChunks }

/-- Pieces the serializer yields for demoReq under chunked framing: the
head combined with the first chunk frame, two further chunk frames, and
the terminator; the empty chunk contributes nothing. -/
def demoOut : List Bytes :=
  [[71, 69, 84, 32, 47, 32, 72, 84, 84, 80, 47, 49, 46, 49, 13, 10, 13, 10,
      51, 13, 10, 102, 111, 111, 13, 10],
    [51, 13, 10, 98, 97, 114, 13, 10],
    [51, 13, 10, 98, 97, 122, 13, 10],
    [48, 13, 10, 13, 10]]

/-- The mutable connection-object state the claims mention: the optional
socket (with its identity and readable-watch flag), the optional h11 state
machine, a counter of forceful_close invocations on the underlying socket,
and the configured tunnel host. -/
structure SockState where
  id : Nat
  readableWatch : Bool
deriving DecidableEq, Repr

/-- State of an HTTP1Connection object: fields sock and state_machine
(None when unconnected or closed), the forceful-close invocation count of
the transport, and the tunnel host configuration. -/
structure ConnState where
  sock : Option SockState
  stateMachine : Option H11Conn
  forcefulCloseCount : Nat
  tunnelHost : Option String
deriving DecidableEq, Repr

/-- Embedding of the complete property: true when there is no state
machine (a Python object is falsy only when it is None here), otherwise
true exactly when both sides of the machine are IDLE. -/
def ConnState.complete (c : ConnState) : Bool :=
  match c.stateMachine with
  | Option.none => true
  | Option.some sm =>
      decide (sm.ourState = H11State.idle) && decide (sm.theirState = H11State.idle)

/-- Embedding of HTTP1Connection.close: when a socket is present, null the
state machine and the socket and invoke forceful_close on the old socket;
when no socket is present, do nothing. -/
def ConnState.close (c : ConnState) : ConnState :=
  match c.sock with
  | Option.none => c
  | Option.some _ =>
      { c with
          sock := Option.none
          stateMachine := Option.none
          forcefulCloseCount := c.forcefulCloseCount + 1 }

/-- One step the transport backend takes inside
send_and_receive_for_a_while: either it calls the produce callback for the
next outgoing piece, or it calls the consume callback on some received
bytes.  The interleaving of the two is the backend's choice, so the loop
is parametrized by an arbitrary schedule of steps. -/
inductive LoopStep where
  | produceStep
  | consumeStep (data : Bytes)
deriving DecidableEq, Repr

/-- Observable events of one run of the send-and-receive loop: a piece
handed to the transport, the produce callback observing StopIteration
(whole request sent), bytes fed to the consume callback, and the final
Response event being parsed (the consume callback raising LoopAbort). -/
inductive LoopEvent where
  | produced (p : Bytes)
  | stopIterationReached
  | consumed (data : Bytes)
  | responseParsed
deriving DecidableEq, Repr

/-- State of one run of the send-and-receive loop of start_http_request:
the request pieces not yet produced, the send_aborted flag of the context
dict (initially true, cleared when produce hits StopIteration), the parsed
response of the context dict, a countdown modelling how many consume calls
the h11 reader needs before it can parse the final Response event, whether
the loop was aborted by LoopAbort, and the event trace. -/
structure LoopState where
  remaining : List Bytes
  sendAborted : Bool
  response : Option H11Response
  countdown : Nat
  loopAborted : Bool
  trace : List LoopEvent
deriving DecidableEq, Repr

/-- One step of the send-and-receive loop.  The produce callback embeds
produce_bytes: on an exhausted piece iterator it records StopIteration and
clears send_aborted, otherwise it hands out the next piece.  The consume
callback embeds consume_bytes with the h11 reader abstracted to a
countdown: receipt of enough data parses the Response event, stores it in
the context and raises LoopAbort, which ends the loop; earlier receipts
only consume data (NEED_DATA or ignored informational responses).  After
LoopAbort no further callbacks run. -/
def loopStep (resp : H11Response) (st : LoopState) : LoopStep → LoopState
  | LoopStep.produceStep =>
      if st.loopAborted then st
      else
        match st.remaining with
        | [] =>
            { st with
                sendAborted := false
                trace := st.trace ++ [LoopEvent.stopIterationReached] }
        | p :: rest =>
            { st with
                remaining := rest
                trace := st.trace ++ [LoopEvent.produced p] }
  | LoopStep.consumeStep d =>
      if st.loopAborted then st
      else if st.countdown ≤ 1 then
        { st with
            response := Option.some resp
            countdown := 0
            loopAborted := true
            trace := st.trace ++ [LoopEvent.consumed d, LoopEvent.responseParsed] }
      else
        { st with
            countdown := st.countdown - 1
            trace := st.trace ++ [LoopEvent.consumed d] }

/-- Run the send-and-receive loop over a schedule of backend steps. -/
def runLoop (resp : H11Response) (sched : List LoopStep) (st : LoopState) : LoopState :=
  sched.foldl (loopStep resp) st

/-- Initial loop state for a request whose serialized pieces are given:
send_aborted starts true, no response yet, the peer parses its Response
after countdown consume calls. -/
def initLoopState (pieces : List Bytes) (countdown : Nat) : LoopState :=
  { remaining := pieces
    sendAborted := true
    response := Option.none
    countdown := countdown
    loopAborted := false
    trace := [] }

/-- Outcome of start_http_request: the result (the h11 response, or a
raised error — ProtocolError for a non-idle state machine, or the failed
assertion when the loop ended without a response), the trace of loop
events, and whether send_failed was invoked on the state machine. -/
structure ExchangeOutcome where
  result : Except Err H11Response
  trace : List LoopEvent
  sendFailedInvoked : Bool
deriving Repr

/-- Embedding of start_http_request.  The request serialization is
abstracted to its piece list, the peer to the response it will send and
the countdown of consume calls needed to parse it, and the backend to a
schedule of produce/consume steps.  The function first checks both sides
of the state machine are IDLE, raising ProtocolError before anything runs
otherwise; it then runs the send-and-receive loop, asserts a response was
parsed, and invokes send_failed exactly when the send_aborted flag is
still set (StopIteration never reached). -/
def startHttpRequest (sm : H11Conn) (pieces : List Bytes) (resp : H11Response)
    (sched : List LoopStep) (countdown : Nat) : ExchangeOutcome :=
  if sm.ourState = H11State.idle ∧ sm.theirState = H11State.idle then
    let final := runLoop resp sched (initLoopState pieces countdown)
    match final.response with
    | Option.none =>
        { result := Except.error Err.brokenAssert
          trace := final.trace
          sendFailedInvoked := false }
    | Option.some r =>
        { result := Except.ok r
          trace := final.trace
          sendFailedInvoked := final.sendAborted }
  else
    { result := Except.error Err.protocolError
      trace := []
      sendFailedInvoked := false }

/-- Outcome of the tunnel method after the CONNECT exchange produced an
h11 response: the raised error if any, and whether forceful_close was
invoked on the raw socket. -/
structure TunnelOutcome where
  result : Except Err Unit
  socketClosed : Bool
deriving Repr

/-- Embedding of the tail of the tunnel method: the h11 response of the
CONNECT exchange is first converted by response_from_h11 (which raises
BadVersionError on an unsupported version, without touching the socket);
then a non-200 status forcefully closes the socket and raises
FailedTunnelError carrying the tunnel response; a 200 completes quietly. -/
def tunnelFinish (h11resp : H11Response) : TunnelOutcome :=
  match responseFromH11 h11resp with
  | Except.error e => { result := Except.error e, socketClosed := false }
  | Except.ok tunnelResponse =>
      if h11resp.statusCode ≠ 200 then
        { result := Except.error (Err.failedTunnel tunnelResponse), socketClosed := true }
      else
        { result := Except.ok (), socketClosed := false }

/-- Python truthiness of an optional string: None and the empty string are
falsy (False, when passed for assert_hostname, is also modelled as
Option.none, which is sound here because the claim only concerns runs with
hostname checking enabled, where assert_hostname is not False). -/
def pyTruthy (s : Option String) : Bool :=
  match s with
  | Option.none => false
  | Option.some str => !str.isEmpty

/-- Python or on an optional string and a fallback string. -/
def pyOrStr (x : Option String) (y : String) : String :=
  match x with
  | Option.none => y
  | Option.some s => if s.isEmpty then y else s

/-- Strip every trailing dot from a hostname, the rstrip call of
wrap_socket. -/
def rstripDots (s : String) : String :=
  String.mk ((s.toList.reverse.dropWhile (fun c => c == Char.ofNat 46)).reverse)

/-- Embedding of the check_host computation of wrap_socket: the Python or
chain assert_hostname or tunnel_host or host, then trailing dots are
stripped.  No other normalization is applied. -/
def wrapSocketCheckHost (assertHostname tunnelHost : Option String) (host : String) : String :=
  rstripDots (pyOrStr assertHostname (pyOrStr tunnelHost host))

/-- Definition following the claim's words, for comparison only: the
verified hostname after additionally stripping square brackets from IPv6
literals, as the spec sentence describes. -/
def stripBrackets (s : String) : String :=
  let cs := s.toList
  if cs.head? == Option.some (Char.ofNat 91) && cs.getLast? == Option.some (Char.ofNat 93) then
    String.mk ((cs.drop 1).dropLast)
  else s

/-- Definition following the claim's words, for comparison only: the
normalization the claim ascribes to wrap_socket, trailing-dot stripping
plus bracket stripping. -/
def specNormalizeHost (s : String) : String :=
  stripBrackets (rstripDots s)

/-- Effects of one connect call beyond the field updates: whether a new
transport connection was opened, whether the tunnel logic ran, and whether
the TLS wrapping logic ran. -/
structure ConnectEffects where
  openedNewConnection : Bool
  tunnelPerformed : Bool
  tlsWrapped : Bool
deriving DecidableEq, Repr

/-- Embedding of HTTP1Connection.connect.  When a socket is already
present the method only sets its readable-watch state to false and
returns.  Otherwise it opens a fresh transport connection (modelled by the
supplied fresh socket identifier), installs a fresh IDLE/IDLE state
machine, and, when an ssl context is given, runs the tunnel logic if a
tunnel host is configured and then wraps the socket in TLS. -/
def ConnState.connect (c : ConnState) (sslCtx : Bool) (freshId : Nat) :
    ConnState × ConnectEffects :=
  match c.sock with
  | Option.some s =>
      ({ c with sock := Option.some { s with readableWatch := false } },
        { openedNewConnection := false, tunnelPerformed := false, tlsWrapped := false })
  | Option.none =>
      let c2 :=
        { c with
            sock := Option.some { id := freshId, readableWatch := false }
            stateMachine :=
              Option.some { ourState := H11State.idle, theirState := H11State.idle } }
      if sslCtx then
        (c2,
          { openedNewConnection := true
            tunnelPerformed := c.tunnelHost.isSome
            tlsWrapped := true })
      else
        (c2,
          { openedNewConnection := true, tunnelPerformed := false, tlsWrapped := false })

/-- Concrete h11 response used by witnesses: a 200 with version 1.1. -/
def demoResp : H11Response :=
  { statusCode := 200, httpVersion := [49, 46, 49], headers := [] }

/-- Concrete bracketed IPv6 literal host. -/
def hostBr : String := "[::1]"

/-- Concrete IPv6 literal host without brackets. -/
def hostInner : String := "::1"

/-- Concrete hostname with trailing dots. -/
def hostDotted : String := "example.com.."

/-- Concrete connection state used by witnesses: an open connection with
an IDLE/IDLE state machine and no tunnel configured. -/
def demoConn : ConnState :=
  { sock := Option.some { id := 0, readableWatch := true }
    stateMachine := Option.some { ourState := H11State.idle, theirState := H11State.idle }
    forcefulCloseCount := 0
    tunnelHost := Option.none }

/-! Theorems for the simpler claims. -/

/-- C5: a text body, and any other unacceptable body shape, is rejected by
make_body_iterable with InvalidBodyError, and the request serializer then
fails before yielding any piece, so no bytes reach the wire. -/
theorem text_body_rejected_before_wire (fr : Framing) (m t : Bytes)
    (hs : List (Bytes × Bytes)) (s : String) :
    makeBodyIterable (Body.text s) = Except.error Err.invalidBody
      ∧ requestBytesIterable fr { method := m, target := t, headers := hs, body := Body.text s }
          = Except.error Err.invalidBody
      ∧ makeBodyIterable Body.other = Except.error Err.invalidBody
      ∧ requestBytesIterable fr { method := m, target := t, headers := hs, body := Body.other }
          = Except.error Err.invalidBody := by
  refine ⟨rfl, ?_, rfl, ?_⟩ <;> simp [requestBytesIterable, makeBodyIterable]

/-- C6: response_from_h11 raises BadVersionError exactly when the version
bytes are neither 1.0 nor 1.1, and otherwise returns a Response whose
version field is HTTP/ ++ http_version. -/
theorem response_from_h11_version (r : H11Response) :
    (r.httpVersion ∉ SUPPORTED_VERSIONS →
        responseFromH11 r = Except.error (Err.badVersion r.httpVersion))
      ∧ (r.httpVersion ∈ SUPPORTED_VERSIONS →
          responseFromH11 r
            = Except.ok
                { statusCode := r.statusCode
                  headers := headersToNativeString r.headers
                  version := HTTPSlash ++ r.httpVersion }) := by
  constructor
  · intro h
    simp [responseFromH11, h]
  · intro h
    simp [responseFromH11, h]

/-- C6 witness: a concrete 200 response with version 1.1 converts to a
Response with version bytes HTTP/1.1, and a concrete version 0.9 response
is rejected. -/
theorem response_from_h11_version_witness :
    responseFromH11 { statusCode := 200, httpVersion := [49, 46, 49], headers := [] }
        = Except.ok { statusCode := 200, headers := [], version := HTTPSlash ++ [49, 46, 49] }
      ∧ responseFromH11 { statusCode := 200, httpVersion := [48, 46, 57], headers := [] }
        = Except.error (Err.badVersion [48, 46, 57]) := by
  constructor
  · exact (response_from_h11_version
      { statusCode := 200, httpVersion := [49, 46, 49], headers := [] }).2 (by decide)
  · exact (response_from_h11_version
      { statusCode := 200, httpVersion := [48, 46, 57], headers := [] }).1 (by decide)

/-- C7: the complete property is true exactly when the connection has no
framing state machine, or both sides of its state machine are IDLE. -/
theorem complete_iff (c : ConnState) :
    c.complete = true ↔
      (c.stateMachine = Option.none
        ∨ ∃ sm, c.stateMachine = Option.some sm
            ∧ sm.ourState = H11State.idle ∧ sm.theirState = H11State.idle) := by
  cases h : c.stateMachine with
  | none => simp [ConnState.complete, h]
  | some sm =>
      simp only [ConnState.complete, h, Bool.and_eq_true, decide_eq_true_eq]
      constructor
      · intro hsm
        exact Or.inr ⟨sm, rfl, hsm.1, hsm.2⟩
      · intro hsm
        rcases hsm with h0 | ⟨sm2, he, h1, h2⟩
        · exact absurd h0 (by simp)
        · cases Option.some.inj he
          exact ⟨h1, h2⟩

/-- Combining the first two pieces of the serialization into one packet
does not change the bytes that reach the wire. -/
theorem combineFirstTwo_flatten (l : List Bytes) :
    (combineFirstTwo l).flatten = l.flatten := by
  match l with
  | [] => rfl
  | [p] => rfl
  | p0 :: p1 :: rest => simp [combineFirstTwo]

/-- Dropping the empty pieces of the serialization does not change the
bytes that reach the wire. -/
theorem filter_nonempty_flatten (l : List Bytes) :
    (l.filter (fun p => !p.isEmpty)).flatten = l.flatten := by
  induction l with
  | nil => rfl
  | cons p rest ih =>
      by_cases hp : p.isEmpty
      · have hnil : p = [] := by
          cases p with
          | nil => rfl
          | cons a as => simp [List.isEmpty] at hp
        simp [hnil, List.filter, ih]
      · simp [List.filter, hp, ih]

/-- Both framings emit no bytes for a zero-length Data event. -/
theorem sendData_nil (fr : Framing) : sendData fr [] = [] := by
  cases fr <;> rfl

/-- Filtering out the empty chunks of the body before serializing them
yields the same wire bytes, because an empty chunk serializes to nothing. -/
theorem flatten_map_filter_nonempty (fr : Framing) (l : List Bytes) :
    ((l.filter (fun c => !c.isEmpty)).map (sendData fr)).flatten
      = (l.map (sendData fr)).flatten := by
  induction l with
  | nil => rfl
  | cons c rest ih =>
      by_cases hc : c.isEmpty
      · have hnil : c = [] := by
          cases c with
          | nil => rfl
          | cons a as => simp [List.isEmpty] at hc
        simp [hnil, List.filter, sendData_nil, ih]
      · simp [List.filter, hc, ih]

/-- C1: every piece yielded by the request serializer is non-empty, and the
wire bytes equal the request head, the serialization of exactly the
non-empty body chunks, and the end-of-message bytes; a zero-length chunk
contributes no bytes at all under chunked framing, so no zero-size chunk
frame is emitted besides the final terminator. -/
theorem request_serializer_suppresses_empty_chunks (fr : Framing) (req : Request)
    (chunks out : List Bytes)
    (h1 : makeBodyIterable req.body = Except.ok chunks)
    (h2 : requestBytesIterable fr req = Except.ok out) :
    (∀ p ∈ out, p ≠ [])
      ∧ out.flatten = requestHeadBytes req
          ++ ((chunks.filter (fun c => !c.isEmpty)).map (sendData fr)).flatten
          ++ sendEOM fr
      ∧ sendData Framing.chunked [] = [] := by
  unfold requestBytesIterable at h2
  rw [h1] at h2
  simp only [Except.ok.injEq] at h2
  subst h2
  refine ⟨?_, ?_, rfl⟩
  · intro p hp
    have hmem := List.mem_filter.mp hp
    intro hnil
    rw [hnil] at hmem
    simp at hmem
  · rw [filter_nonempty_flatten, combineFirstTwo_flatten,
      flatten_map_filter_nonempty]
    simp

/-- C1 witness: the spec scenario body foo, bar, empty, baz under chunked
framing; the serializer yields only non-empty pieces and the wire carries
exactly the three non-empty chunk frames plus the terminator. -/
theorem request_serializer_suppresses_empty_chunks_witness :
    (∀ p ∈ demoOut, p ≠ [])
      ∧ demoOut.flatten = requestHeadBytes demoReq
          ++ ((demoChunks.filter (fun c => !c.isEmpty)).map (sendData Framing.chunked)).flatten
          ++ sendEOM Framing.chunked
      ∧ sendData Framing.chunked [] = [] :=
  request_serializer_suppresses_empty_chunks Framing.chunked demoReq demoChunks demoOut
    (by rfl) (by rfl)

/-- One loop step preserves the invariant that the send_aborted flag is
set exactly while the produce callback has not yet observed
StopIteration. -/
theorem loopStep_sendAborted_inv (resp : H11Response) (st : LoopState) (step : LoopStep)
    (h : st.sendAborted = true ↔ LoopEvent.stopIterationReached ∉ st.trace) :
    (loopStep resp st step).sendAborted = true ↔
      LoopEvent.stopIterationReached ∉ (loopStep resp st step).trace := by
  cases step with
  | produceStep =>
      by_cases ha : st.loopAborted
      · simpa [loopStep, ha] using h
      · cases hr : st.remaining with
        | nil => simp [loopStep, ha, hr]
        | cons p rest => simpa [loopStep, ha, hr] using h
  | consumeStep d =>
      by_cases ha : st.loopAborted
      · simpa [loopStep, ha] using h
      · by_cases hc : st.countdown ≤ 1
        · simpa [loopStep, ha, hc] using h
        · simpa [loopStep, ha, hc] using h

/-- Running the whole loop preserves the send_aborted invariant. -/
theorem runLoop_sendAborted_inv (resp : H11Response) (sched : List LoopStep) (st : LoopState)
    (h : st.sendAborted = true ↔ LoopEvent.stopIterationReached ∉ st.trace) :
    (runLoop resp sched st).sendAborted = true ↔
      LoopEvent.stopIterationReached ∉ (runLoop resp sched st).trace := by
  induction sched generalizing st with
  | nil => exact h
  | cons step rest ih =>
      have hstep := loopStep_sendAborted_inv resp st step h
      simpa [runLoop, List.foldl_cons] using ih (loopStep resp st step) hstep

/-- C2: whenever start_http_request returns a response, send_failed was
invoked on the state machine exactly when the produce callback never
observed StopIteration, that is, exactly when the final Response event was
parsed before the request byte iterator had been fully consumed. -/
theorem start_http_request_send_failed_iff (sm : H11Conn) (pieces : List Bytes)
    (resp r : H11Response) (sched : List LoopStep) (countdown : Nat)
    (h : (startHttpRequest sm pieces resp sched countdown).result = Except.ok r) :
    (startHttpRequest sm pieces resp sched countdown).sendFailedInvoked = true ↔
      LoopEvent.stopIterationReached ∉
        (startHttpRequest sm pieces resp sched countdown).trace := by
  by_cases hidle : sm.ourState = H11State.idle ∧ sm.theirState = H11State.idle
  · have hinv := runLoop_sendAborted_inv resp sched (initLoopState pieces countdown)
      (by simp [initLoopState])
    simp only [startHttpRequest, if_pos hidle] at h ⊢
    cases hr : (runLoop resp sched (initLoopState pieces countdown)).response with
    | none =>
        simp only [hr] at h
        exact absurd h (by simp)
    | some r2 =>
        simp only [hr]
        simpa using hinv
  · simp only [startHttpRequest, if_neg hidle] at h
    exact absurd h (by simp)

/-- C2 witness: a one-piece request whose response arrives after the piece
was produced but before produce could observe StopIteration is flagged
with send_failed. -/
theorem start_http_request_send_failed_iff_witness :
    (startHttpRequest { ourState := H11State.idle, theirState := H11State.idle }
          [[104]] demoResp [LoopStep.produceStep, LoopStep.consumeStep []] 1).sendFailedInvoked
        = true ↔
      LoopEvent.stopIterationReached ∉
        (startHttpRequest { ourState := H11State.idle, theirState := H11State.idle }
          [[104]] demoResp [LoopStep.produceStep, LoopStep.consumeStep []] 1).trace :=
  start_http_request_send_failed_iff
    { ourState := H11State.idle, theirState := H11State.idle }
    [[104]] demoResp demoResp [LoopStep.produceStep, LoopStep.consumeStep []] 1 (by rfl)

/-- C3: start_http_request raises ProtocolError exactly when one side of
the state machine is not IDLE at entry, and in that case it raises before
any byte is produced or consumed (the loop trace is empty). -/
theorem start_http_request_requires_idle (sm : H11Conn) (pieces : List Bytes)
    (resp : H11Response) (sched : List LoopStep) (countdown : Nat) :
    ((startHttpRequest sm pieces resp sched countdown).result
          = Except.error Err.protocolError
        ↔ ¬(sm.ourState = H11State.idle ∧ sm.theirState = H11State.idle))
      ∧ (¬(sm.ourState = H11State.idle ∧ sm.theirState = H11State.idle) →
          (startHttpRequest sm pieces resp sched countdown).trace = []) := by
  by_cases hidle : sm.ourState = H11State.idle ∧ sm.theirState = H11State.idle
  · unfold startHttpRequest
    rw [if_pos hidle]
    cases hr : (runLoop resp sched (initLoopState pieces countdown)).response with
    | none => simp [hidle, hr]
    | some r2 => simp [hidle, hr]
  · unfold startHttpRequest
    rw [if_neg hidle]
    simp [hidle]

/-- C3 witness: with our side of the machine mid-exchange, the concrete
call raises ProtocolError with an empty trace. -/
theorem start_http_request_requires_idle_witness :
    (startHttpRequest { ourState := H11State.active, theirState := H11State.idle }
          [] demoResp [] 0).result = Except.error Err.protocolError
      ∧ (startHttpRequest { ourState := H11State.active, theirState := H11State.idle }
          [] demoResp [] 0).trace = [] :=
  ⟨(start_http_request_requires_idle
        { ourState := H11State.active, theirState := H11State.idle } [] demoResp [] 0).1.mpr
      (by decide),
    (start_http_request_requires_idle
        { ourState := H11State.active, theirState := H11State.idle } [] demoResp [] 0).2
      (by decide)⟩

/-- C4 counterexample: a CONNECT response with status 403 but version 0.9
refutes the claim as stated, because the tunnel raises BadVersionError
before the status check, so the socket is not forcefully closed and no
FailedTunnelError is raised despite the non-200 status. -/
theorem tunnel_claim_fails_on_bad_version :
    (tunnelFinish { statusCode := 403, httpVersion := [48, 46, 57], headers := [] }).socketClosed
        = false
      ∧ (tunnelFinish { statusCode := 403, httpVersion := [48, 46, 57], headers := [] }).result
        = Except.error (Err.badVersion [48, 46, 57])
      ∧ ¬∃ resp,
          (tunnelFinish { statusCode := 403, httpVersion := [48, 46, 57], headers := [] }).result
            = Except.error (Err.failedTunnel resp) := by
  refine ⟨rfl, rfl, ?_⟩
  rintro ⟨resp, hresp⟩
  simp [tunnelFinish, responseFromH11, SUPPORTED_VERSIONS] at hresp

/-- C4 amended: for a CONNECT response whose version is supported (so that
conversion does not raise BadVersionError first), a status other than 200
forcefully closes the raw socket and raises FailedTunnelError with the
tunnel response attached, and a status of exactly 200 completes the tunnel
without error and without closing the socket. -/
theorem tunnel_status_check (r : H11Response) (h : r.httpVersion ∈ SUPPORTED_VERSIONS) :
    (r.statusCode ≠ 200 →
        (tunnelFinish r).socketClosed = true
          ∧ (tunnelFinish r).result
            = Except.error (Err.failedTunnel
                { statusCode := r.statusCode
                  headers := headersToNativeString r.headers
                  version := HTTPSlash ++ r.httpVersion }))
      ∧ (r.statusCode = 200 →
          (tunnelFinish r).result = Except.ok () ∧ (tunnelFinish r).socketClosed = false) := by
  constructor
  · intro hs
    simp [tunnelFinish, responseFromH11, h, hs]
  · intro hs
    simp [tunnelFinish, responseFromH11, h, hs]

/-- C4 witness: a 403 CONNECT response with version 1.1 closes the socket
and raises FailedTunnelError with the 403 response attached, and a 200
CONNECT response with version 1.1 completes quietly. -/
theorem tunnel_status_check_witness :
    ((tunnelFinish { statusCode := 403, httpVersion := [49, 46, 49], headers := [] }).socketClosed
          = true
        ∧ (tunnelFinish { statusCode := 403, httpVersion := [49, 46, 49], headers := [] }).result
          = Except.error (Err.failedTunnel
              { statusCode := 403
                headers := headersToNativeString []
                version := HTTPSlash ++ [49, 46, 49] }))
      ∧ ((tunnelFinish { statusCode := 200, httpVersion := [49, 46, 49], headers := [] }).result
            = Except.ok ()
          ∧ (tunnelFinish { statusCode := 200, httpVersion := [49, 46, 49], headers := [] }).socketClosed
            = false) :=
  ⟨(tunnel_status_check { statusCode := 403, httpVersion := [49, 46, 49], headers := [] }
        (by decide)).1 (by decide),
    (tunnel_status_check { statusCode := 200, httpVersion := [49, 46, 49], headers := [] }
        (by decide)).2 rfl⟩

/-- C9: close is idempotent; on an open connection the first call nulls
the socket and the state machine and invokes forceful_close on the
underlying socket exactly once, and a second call leaves the object in the
identical closed state with no further forceful_close invocation. -/
theorem close_idempotent (c : ConnState) (h : c.sock.isSome = true) :
    c.close.sock = Option.none
      ∧ c.close.stateMachine = Option.none
      ∧ c.close.forcefulCloseCount = c.forcefulCloseCount + 1
      ∧ c.close.close = c.close := by
  cases hs : c.sock with
  | none => rw [hs] at h; exact absurd h (by simp)
  | some s =>
      refine ⟨?_, ?_, ?_, ?_⟩ <;> simp [ConnState.close, hs]

/-- C9 witness: closing the concrete open demo connection twice. -/
theorem close_idempotent_witness :
    demoConn.close.sock = Option.none
      ∧ demoConn.close.stateMachine = Option.none
      ∧ demoConn.close.forcefulCloseCount = demoConn.forcefulCloseCount + 1
      ∧ demoConn.close.close = demoConn.close :=
  close_idempotent demoConn (by decide)

/-- C10: calling connect on a connection whose socket is already open
leaves everything unchanged except the readable-watch state of the
existing socket, which is set to false; no new transport connection is
opened, the socket and state machine are not replaced, and neither the
tunnel nor the TLS-wrapping logic runs. -/
theorem connect_when_already_connected (c : ConnState) (s : SockState)
    (sslCtx : Bool) (freshId : Nat) (h : c.sock = Option.some s) :
    (c.connect sslCtx freshId).1
        = { c with sock := Option.some { s with readableWatch := false } }
      ∧ (c.connect sslCtx freshId).2
        = { openedNewConnection := false, tunnelPerformed := false, tlsWrapped := false }
      ∧ (c.connect sslCtx freshId).1.stateMachine = c.stateMachine
      ∧ (c.connect sslCtx freshId).1.sock
        = Option.some { id := s.id, readableWatch := false } := by
  refine ⟨?_, ?_, ?_, ?_⟩ <;> simp [ConnState.connect, h]

/-- C10 witness: connecting the already-open demo connection with TLS
requested only clears the readable-watch flag of its socket. -/
theorem connect_when_already_connected_witness :
    (demoConn.connect true 7).1
        = { demoConn with sock := Option.some { id := 0, readableWatch := false } }
      ∧ (demoConn.connect true 7).2
        = { openedNewConnection := false, tunnelPerformed := false, tlsWrapped := false }
      ∧ (demoConn.connect true 7).1.stateMachine = demoConn.stateMachine
      ∧ (demoConn.connect true 7).1.sock
        = Option.some { id := 0, readableWatch := false } :=
  connect_when_already_connected demoConn { id := 0, readableWatch := true } true 7 rfl

/-- Head of a dropWhile result, when present, fails the predicate. -/
theorem head_dropWhile_false (p : Char → Bool) (l : List Char) (c : Char)
    (h : (l.dropWhile p).head? = Option.some c) : p c = false := by
  induction l with
  | nil => simp [List.dropWhile] at h
  | cons a as ih =>
      by_cases hp : p a
      · rw [List.dropWhile_cons, if_pos hp] at h
        exact ih h
      · rw [List.dropWhile_cons, if_neg hp] at h
        simp only [List.head?_cons, Option.some.injEq] at h
        rw [← h]
        exact Bool.not_eq_true _ ▸ hp

/-- Stripping trailing dots splits the host into the stripped prefix and a
block of dots, and the stripped prefix does not end in a dot. -/
theorem rstripDots_spec (s : String) :
    (∃ n, s.toList = (rstripDots s).toList ++ List.replicate n (Char.ofNat 46))
      ∧ (rstripDots s).toList.getLast? ≠ Option.some (Char.ofNat 46) := by
  have htl : (rstripDots s).toList
      = (s.toList.reverse.dropWhile (fun c => c == Char.ofNat 46)).reverse := rfl
  constructor
  · have hrep : s.toList.reverse.takeWhile (fun c => c == Char.ofNat 46)
        = List.replicate
            (s.toList.reverse.takeWhile (fun c => c == Char.ofNat 46)).length
            (Char.ofNat 46) := by
      apply List.eq_replicate_of_mem
      intro b hb
      have hpb := List.mem_takeWhile_imp hb
      exact eq_of_beq hpb
    have hsplit : s.toList = (rstripDots s).toList
        ++ (s.toList.reverse.takeWhile (fun c => c == Char.ofNat 46)).reverse := by
      calc s.toList
          = s.toList.reverse.reverse := (List.reverse_reverse _).symm
        _ = (s.toList.reverse.takeWhile (fun c => c == Char.ofNat 46)
              ++ s.toList.reverse.dropWhile (fun c => c == Char.ofNat 46)).reverse := by
              rw [List.takeWhile_append_dropWhile]
        _ = (s.toList.reverse.dropWhile (fun c => c == Char.ofNat 46)).reverse
              ++ (s.toList.reverse.takeWhile (fun c => c == Char.ofNat 46)).reverse := by
              rw [List.reverse_append]
        _ = (rstripDots s).toList
              ++ (s.toList.reverse.takeWhile (fun c => c == Char.ofNat 46)).reverse := by
              rw [htl]
    refine ⟨(s.toList.reverse.takeWhile (fun c => c == Char.ofNat 46)).length, ?_⟩
    conv_lhs => rw [hsplit]
    congr 1
    conv_lhs => rw [hrep]
    rw [List.reverse_replicate]
  · rw [htl, List.getLast?_reverse]
    intro hlast
    have := head_dropWhile_false (fun c => c == Char.ofNat 46) s.toList.reverse _ hlast
    simp at this

/-- C8 counterexample: with no assert_hostname and no tunnel host, the
hostname checked for the bracketed IPv6 literal host is the bracketed
string itself; the claim says brackets are stripped, which would give the
bare address, a different string. -/
theorem wrap_socket_bracket_counterexample :
    wrapSocketCheckHost Option.none Option.none hostBr = hostBr
      ∧ specNormalizeHost hostBr = hostInner
      ∧ hostBr ≠ hostInner := by
  refine ⟨?_, ?_, ?_⟩ <;> decide

/-- C8 amended: the hostname verified against the peer certificate is
assert_hostname if set (truthy), otherwise the tunnel host if set,
otherwise the connection host, normalized by stripping trailing dots only;
square brackets are not stripped.  The normalization splits the chosen
host into the result plus a run of trailing dots, and the result never
ends in a dot. -/
theorem wrap_socket_check_host_amended (a t : Option String) (host : String) :
    (∀ s, a = Option.some s → s.isEmpty = false →
        wrapSocketCheckHost a t host = rstripDots s)
      ∧ (pyTruthy a = false → ∀ s, t = Option.some s → s.isEmpty = false →
          wrapSocketCheckHost a t host = rstripDots s)
      ∧ (pyTruthy a = false → pyTruthy t = false →
          wrapSocketCheckHost a t host = rstripDots host)
      ∧ (∃ n, host.toList = (rstripDots host).toList ++ List.replicate n (Char.ofNat 46))
      ∧ (rstripDots host).toList.getLast? ≠ Option.some (Char.ofNat 46) := by
  refine ⟨?_, ?_, ?_, (rstripDots_spec host).1, (rstripDots_spec host).2⟩
  · intro s hs hne
    subst hs
    simp [wrapSocketCheckHost, pyOrStr, hne]
  · intro hfa s hs hne
    subst hs
    cases ha : a with
    | none => simp [wrapSocketCheckHost, pyOrStr, hne]
    | some s0 =>
        rw [ha] at hfa
        have h0 : s0.isEmpty = true := by simpa [pyTruthy] using hfa
        simp [wrapSocketCheckHost, pyOrStr, h0, hne]
  · intro hfa hft
    cases ha : a with
    | none =>
        cases ht : t with
        | none => simp [wrapSocketCheckHost, pyOrStr]
        | some s1 =>
            rw [ht] at hft
            have h1 : s1.isEmpty = true := by simpa [pyTruthy] using hft
            simp [wrapSocketCheckHost, pyOrStr, h1]
    | some s0 =>
        rw [ha] at hfa
        have h0 : s0.isEmpty = true := by simpa [pyTruthy] using hfa
        cases ht : t with
        | none => simp [wrapSocketCheckHost, pyOrStr, h0]
        | some s1 =>
            rw [ht] at hft
            have h1 : s1.isEmpty = true := by simpa [pyTruthy] using hft
            simp [wrapSocketCheckHost, pyOrStr, h0, h1]

/-- C8 witness: concrete instances of each clause of the amended claim. -/
theorem wrap_socket_check_host_amended_witness :
    wrapSocketCheckHost (Option.some hostDotted) Option.none hostBr = rstripDots hostDotted
      ∧ (∃ n, hostDotted.toList
            = (rstripDots hostDotted).toList ++ List.replicate n (Char.ofNat 46))
      ∧ (rstripDots hostDotted).toList.getLast? ≠ Option.some (Char.ofNat 46) :=
  ⟨(wrap_socket_check_host_amended (Option.some hostDotted) Option.none hostBr).1
      hostDotted rfl (by decide),
    (wrap_socket_check_host_amended Option.none Option.none hostDotted).2.2.2.1,
    (wrap_socket_check_host_amended Option.none Option.none hostDotted).2.2.2.2⟩

end Urllib3
